import Mathlib

/-!
Verification of the frame-sampling and encoding arithmetic of
`gif_creator.py` (class `VideoToGifConverter`).

Python floats are modelled as rationals (ℚ); Python's `int(x)` conversion,
which truncates toward zero, is modelled by `pyInt`. The body of
`VideoToGifConverter.create_gif` up to the frame-decoding loop is embedded
as the pure function `create_gif_plan`, which returns either the error the
code raises (`ValueError` for validation, `ZeroDivisionError` from the
`frame_interval` division) or the computed sampling plan: the list of
source-frame indices, the resize target and the per-frame duration.
The two encoder paths (`_save_optimized_gif` via PIL, and the
`imageio.mimsave` fallback) are embedded as functions producing the
observable artifact parameters (frame list, per-frame delay in seconds,
loop count).
-/

/-- Python's `int()` applied to a float: truncation toward zero. -/
def pyInt (q : ℚ) : ℤ := if q < 0 then ⌈q⌉ else ⌊q⌋

/-- Source video properties read in `VideoToGifConverter.__init__`
(lines 29-33): `fps`, `total_frames`, `width`, `height`. -/
structure VideoMetadata where
  fps : ℚ
  total_frames : ℕ
  width : ℕ
  height : ℕ
deriving DecidableEq

/-- `self.duration = self.total_frames / self.fps` (line 33). -/
def VideoMetadata.duration (m : VideoMetadata) : ℚ := (m.total_frames : ℚ) / m.fps

/-- Lines 58-61: default `stop_time` to `self.duration`, then clamp with
`stop_time = min(stop_time, self.duration)`. -/
def clampStop (m : VideoMetadata) (stop_time : Option ℚ) : ℚ :=
  min (stop_time.getD m.duration) m.duration

/-- Line 66: `start_frame = int(start_time * self.fps)`. -/
def startFrame (m : VideoMetadata) (start_time : ℚ) : ℤ :=
  pyInt (start_time * m.fps)

/-- Line 67: `end_frame = int(stop_time * self.fps)`. -/
def endFrame (m : VideoMetadata) (stop_time : ℚ) : ℤ :=
  pyInt (stop_time * m.fps)

/-- Line 68: `effective_frames = end_frame - start_frame`. -/
def effectiveFrames (m : VideoMetadata) (start_time stop_time : ℚ) : ℤ :=
  endFrame m stop_time - startFrame m start_time

/-- Lines 71-78: the resize target `(new_width, new_height)`.
`if width and width < self.width` — Python truthiness makes `width = 0`
and `width = None` both take the else branch. In the then branch
`new_height = int(self.height * (width / self.width))`. -/
def resizeTarget (m : VideoMetadata) (width : Option ℕ) : ℤ × ℤ :=
  match width with
  | some w =>
      if w ≠ 0 ∧ w < m.width then
        ((w : ℤ), pyInt ((m.height : ℚ) * ((w : ℚ) / (m.width : ℚ))))
      else ((m.width : ℤ), (m.height : ℤ))
  | none => ((m.width : ℤ), (m.height : ℤ))

/-- Line 81: `output_frames_count = int(duration * fps)`. -/
def outputFramesCount (duration : ℚ) (fps : ℕ) : ℤ :=
  pyInt (duration * (fps : ℚ))

/-- Line 82: `frame_interval = effective_frames / output_frames_count`
(true float division). -/
def frameInterval (effective_frames output_frames_count : ℤ) : ℚ :=
  (effective_frames : ℚ) / (output_frames_count : ℚ)

/-- Lines 86-87: the list comprehension
`[start_frame + min(int(i * frame_interval), effective_frames - 1)
  for i in range(output_frames_count)]`. -/
def frameIndices (start_frame effective_frames : ℤ) (interval : ℚ) (n : ℕ) :
    List ℤ :=
  (List.range n).map
    (fun i : ℕ =>
      start_frame + min (pyInt ((i : ℚ) * interval)) (effective_frames - 1))

/-- The exceptions `create_gif` can raise before the decoding loop:
the explicit `ValueError` of line 63 and the `ZeroDivisionError` that
line 82 raises when `output_frames_count == 0`. -/
inductive GifError
  | validationError
  | zeroDivisionError
deriving DecidableEq

/-- Everything the sampling stage hands to the decoding/encoding stages:
the source-frame indices, the resize target and the per-frame display
duration `frame_duration = 1.0 / fps` (line 109). -/
structure SamplingPlan where
  indices : List ℤ
  newWidth : ℤ
  newHeight : ℤ
  frameDuration : ℚ
deriving DecidableEq

/-- `VideoToGifConverter.create_gif` (lines 57-109) up to and including
the computation of the sampled frame indices and `frame_duration`,
with the control flow of the Python code: clamp `stop_time`, raise
`ValueError` if `start_time >= stop_time`, compute the frame window and
resize target, then divide by `output_frames_count` (raising
`ZeroDivisionError` when it is zero) and build the index list. -/
def create_gif_plan (m : VideoMetadata) (duration : ℚ) (width : Option ℕ)
    (fps : ℕ) (start_time : ℚ) (stop_time : Option ℚ) :
    Except GifError SamplingPlan :=
  let stop := clampStop m stop_time
  if stop ≤ start_time then .error .validationError
  else
    let sf := startFrame m start_time
    let eff := effectiveFrames m start_time stop
    let rt := resizeTarget m width
    let n := outputFramesCount duration fps
    if n = 0 then .error .zeroDivisionError
    else
      .ok { indices := frameIndices sf eff (frameInterval eff n) n.toNat,
            newWidth := rt.1, newHeight := rt.2,
            frameDuration := 1 / (fps : ℚ) }

/-- A decoded frame as far as the encoder observes it: its dimensions. -/
structure Frame where
  width : ℤ
  height : ℤ
deriving DecidableEq

/-- The observable parameters of the written GIF artifact: the ordered
frame sequence (with dimensions), the per-frame display delay in seconds,
and the loop count (0 = loop forever). -/
structure GifArtifact where
  frames : List Frame
  delaySeconds : ℚ
  loop : ℕ
deriving DecidableEq

/-- `_save_optimized_gif` (lines 126-142): indexes `pil_frames[0]`
(an `IndexError`, hence `none`, on an empty list), writes all frames via
`save_all`/`append_images`, passes `duration=frame_duration * 1000`
milliseconds (so the delay in seconds is `frame_duration * 1000 / 1000`)
and `loop=0`. -/
def save_optimized_gif (frames : List Frame) (frame_duration : ℚ) :
    Option GifArtifact :=
  match frames with
  | [] => none
  | f :: rest =>
      some { frames := f :: rest,
             delaySeconds := frame_duration * 1000 / 1000,
             loop := 0 }

/-- Line 114: `imageio.mimsave(output_path, frames, duration=frame_duration,
loop=0)` — the fallback writer takes the delay in seconds directly. -/
def mimsave (frames : List Frame) (frame_duration : ℚ) : GifArtifact :=
  { frames := frames, delaySeconds := frame_duration, loop := 0 }

/-! ### Helper lemmas -/

lemma pyInt_of_nonneg {q : ℚ} (h : 0 ≤ q) : pyInt q = ⌊q⌋ := by
  simp [pyInt, not_lt.mpr h]

lemma pyInt_nonneg {q : ℚ} (h : 0 ≤ q) : 0 ≤ pyInt q := by
  rw [pyInt_of_nonneg h]
  exact Int.floor_nonneg.mpr h

lemma pyInt_mono_of_nonneg {a b : ℚ} (ha : 0 ≤ a) (hab : a ≤ b) :
    pyInt a ≤ pyInt b := by
  rw [pyInt_of_nonneg ha, pyInt_of_nonneg (ha.trans hab)]
  exact Int.floor_le_floor hab

/-- Inversion of `create_gif_plan`: a successful run means validation
passed, the frame-count division did not divide by zero, and the plan is
exactly the one built from the sampler's intermediate quantities. -/
lemma create_gif_plan_ok_iff (m : VideoMetadata) (duration : ℚ)
    (width : Option ℕ) (fps : ℕ) (start_time : ℚ) (stop_time : Option ℚ)
    (p : SamplingPlan) :
    create_gif_plan m duration width fps start_time stop_time = .ok p ↔
      ¬ clampStop m stop_time ≤ start_time ∧
      outputFramesCount duration fps ≠ 0 ∧
      p = { indices :=
              frameIndices (startFrame m start_time)
                (effectiveFrames m start_time (clampStop m stop_time))
                (frameInterval
                  (effectiveFrames m start_time (clampStop m stop_time))
                  (outputFramesCount duration fps))
                (outputFramesCount duration fps).toNat,
            newWidth := (resizeTarget m width).1,
            newHeight := (resizeTarget m width).2,
            frameDuration := 1 / (fps : ℚ) } := by
  simp only [create_gif_plan]
  split_ifs with hv hn
  · constructor
    · intro h; cases h
    · rintro ⟨hv2, -, -⟩; exact absurd hv hv2
  · constructor
    · intro h; cases h
    · rintro ⟨-, hn2, -⟩; exact absurd hn hn2
  · constructor
    · intro h
      refine ⟨hv, hn, ?_⟩
      cases h
      rfl
    · rintro ⟨-, -, rfl⟩
      rfl

/-! ### Concrete sources used in counterexamples and witnesses -/

/-- A 1920x1080 source: 120 seconds at 30 fps (3600 frames). -/
def m120 : VideoMetadata :=
  { fps := 30, total_frames := 3600, width := 1920, height := 1080 }

/-- A 1920x1080 source: 10 seconds at 10 fps (100 frames). -/
def m10 : VideoMetadata :=
  { fps := 10, total_frames := 100, width := 1920, height := 1080 }

lemma m120_duration : m120.duration = 120 := by
  norm_num [VideoMetadata.duration, m120]

lemma m10_duration : m10.duration = 10 := by
  norm_num [VideoMetadata.duration, m10]

/-! ### C5: start >= clamped stop always raises the validation error -/

/-- C5: for every request where `start_time >= stop_time` after `stop_time`
is clamped to the source duration, `create_gif` raises the `ValueError` of
line 63 before any frame sampling occurs; no plan is ever produced. -/
theorem c5_validation_always_raises (m : VideoMetadata) (duration : ℚ)
    (width : Option ℕ) (fps : ℕ) (start_time : ℚ) (stop_time : Option ℚ)
    (h : clampStop m stop_time ≤ start_time) :
    create_gif_plan m duration width fps start_time stop_time =
      .error .validationError := by
  unfold create_gif_plan
  exact if_pos h

theorem c5_validation_always_raises_witness :
    create_gif_plan m120 1 none 10 5 (some 3) = .error .validationError :=
  c5_validation_always_raises m120 1 none 10 5 (some 3)
    (by rw [clampStop, Option.getD_some, m120_duration]; norm_num)

/-! ### C8: no resize when maxWidth is unset or at least the source width -/

/-- C8: whenever the requested maximum width is unset, or is at least the
source width, the resize branch of lines 71-78 passes the source
dimensions through unchanged (scale factor 1, no upscaling). -/
theorem c8_no_upscale (m : VideoMetadata) (width : Option ℕ)
    (h : ∀ w, width = some w → m.width ≤ w) :
    resizeTarget m width = ((m.width : ℤ), (m.height : ℤ)) := by
  match width with
  | none => rfl
  | some w =>
      have hw : m.width ≤ w := h w rfl
      simp [resizeTarget, not_lt.mpr hw]

theorem c8_no_upscale_witness :
    resizeTarget m120 (some 1920) = ((m120.width : ℤ), (m120.height : ℤ)) :=
  c8_no_upscale m120 (some 1920)
    (by rintro w ⟨rfl⟩; norm_num [m120])

/-! ### C10: maxWidth = 0 behaves exactly like an unset maxWidth -/

/-- C10: a requested maximum width of 0 is falsy in Python, so
`if width and width < self.width` takes the else branch exactly as for
`width=None`: no resize, source dimensions preserved. -/
theorem c10_zero_width_like_none (m : VideoMetadata) :
    resizeTarget m (some 0) = resizeTarget m none ∧
      resizeTarget m none = ((m.width : ℤ), (m.height : ℤ)) := by
  constructor
  · simp [resizeTarget]
  · rfl

/-! ### C1: the resize height uses int() truncation, not round() -/

/-- C1 counterexample: for a 1920x1080 source and requested maximum width
300, line 74 computes `int(1080 * (300/1920)) = int(168.75) = 168`,
whereas the claimed `round(1080 * 300/1920)` is 169. -/
theorem c1_round_height_counterexample :
    resizeTarget m120 (some 300) = ((300 : ℤ), (168 : ℤ)) ∧
      round ((1080 : ℚ) * 300 / 1920) = (169 : ℤ) := by
  constructor
  · norm_num [resizeTarget, m120, pyInt]
  · norm_num [round_eq]

/-- C1 amended: whenever `maxWidth` is set, nonzero and strictly less than
the source width, the computed new height is the truncation
`int(sourceHeight * (maxWidth / sourceWidth))`, i.e. the integer floor
division `sourceHeight * maxWidth / sourceWidth` — not the rounding the
claim states (for 1920x1080 at maxWidth 300 this gives 168, not 169). -/
theorem c1_resize_height_truncates (m : VideoMetadata) (w : ℕ)
    (hw0 : w ≠ 0) (hlt : w < m.width) :
    resizeTarget m (some w) =
      ((w : ℤ), ((m.height * w : ℕ) : ℤ) / ((m.width : ℕ) : ℤ)) := by
  have hcond : w ≠ 0 ∧ w < m.width := ⟨hw0, hlt⟩
  simp only [resizeTarget, if_pos hcond]
  refine Prod.ext rfl ?_
  show pyInt ((m.height : ℚ) * ((w : ℚ) / (m.width : ℚ))) = _
  rw [pyInt_of_nonneg (by positivity)]
  have hcast : (m.height : ℚ) * ((w : ℚ) / (m.width : ℚ)) =
      ((m.height * w : ℕ) : ℚ) / ((m.width : ℕ) : ℚ) := by
    push_cast
    ring
  rw [hcast, Rat.floor_natCast_div_natCast]

theorem c1_resize_height_truncates_witness :
    resizeTarget m120 (some 300) =
      ((300 : ℤ), ((m120.height * 300 : ℕ) : ℤ) / ((m120.width : ℕ) : ℤ)) :=
  c1_resize_height_truncates m120 300 (by decide) (by decide)

/-! ### C2: a zero output frame count crashes with ZeroDivisionError -/

/-- C2 counterexample: with `duration=0.05, fps=10` the output frame count
`int(0.05 * 10) = 0`, and on a valid segment (start 0, full 120s source)
the conversion does not hand an empty sequence to the encoder — line 82
(`frame_interval = effective_frames / output_frames_count`) raises
`ZeroDivisionError`. -/
theorem c2_zero_count_crash_counterexample :
    outputFramesCount (1/20 : ℚ) 10 = 0 ∧
      create_gif_plan m120 (1/20) none 10 0 none =
        .error .zeroDivisionError := by
  have hn : outputFramesCount (1/20 : ℚ) 10 = 0 := by
    norm_num [outputFramesCount, pyInt]
  have hv : ¬ clampStop m120 none ≤ (0 : ℚ) := by
    rw [clampStop, Option.getD_none, m120_duration]
    norm_num
  refine ⟨hn, ?_⟩
  simp only [create_gif_plan]
  rw [if_neg hv, if_pos hn]

/-- C2 amended: for every request that passes time validation but has
`int(outputDuration * outputFps) = 0`, the conversion crashes with a
`ZeroDivisionError` at the `frame_interval` division of line 82; the
sampling list comprehension and the encoder are never reached (so no
empty sequence is ever produced). -/
theorem c2_zero_count_raises_zero_division (m : VideoMetadata)
    (duration : ℚ) (width : Option ℕ) (fps : ℕ) (start_time : ℚ)
    (stop_time : Option ℚ)
    (hv : ¬ clampStop m stop_time ≤ start_time)
    (hn : outputFramesCount duration fps = 0) :
    create_gif_plan m duration width fps start_time stop_time =
      .error .zeroDivisionError := by
  simp only [create_gif_plan]
  rw [if_neg hv, if_pos hn]

theorem c2_zero_count_raises_zero_division_witness :
    create_gif_plan m120 (1/20) none 10 0 none =
      .error .zeroDivisionError :=
  c2_zero_count_raises_zero_division m120 (1/20) none 10 0 none
    (by rw [clampStop, Option.getD_none, m120_duration]; norm_num)
    (by norm_num [outputFramesCount, pyInt])

/-! ### C4: effective frames is a difference of floors, not a round -/

/-- C4 counterexample: at 10 fps with the clamped segment
`[0.09, 0.1]`, line 68 computes
`effective_frames = int(0.1*10) - int(0.09*10) = 1 - 0 = 1`, while the
claimed `round((0.1-0.09)*10) = round(0.1) = 0`. -/
theorem c4_round_span_counterexample :
    clampStop m10 (some (1/10)) = 1/10 ∧
      effectiveFrames m10 (9/100) (1/10) = 1 ∧
      round (((1/10 : ℚ) - 9/100) * 10) = 0 := by
  refine ⟨?_, ?_, ?_⟩
  · rw [clampStop, Option.getD_some, m10_duration]
    norm_num
  · norm_num [effectiveFrames, endFrame, startFrame, pyInt, m10]
  · norm_num [round_eq]

/-- C4 amended: for a clamped segment with `0 ≤ startTime ≤ stopTime` and
nonnegative source fps, the number of effective source frames used by the
sampler equals `floor(stopTime * fps) - floor(startTime * fps)`; this can
differ from the claimed `round((stopTime - startTime) * fps)`, but never
by more than 1. -/
theorem c4_effective_frames_floor_difference (m : VideoMetadata) (s t : ℚ)
    (hs : 0 ≤ s) (hst : s ≤ t) (hfps : 0 ≤ m.fps) :
    effectiveFrames m s t = ⌊t * m.fps⌋ - ⌊s * m.fps⌋ ∧
      |effectiveFrames m s t - round ((t - s) * m.fps)| ≤ 1 := by
  have ha : 0 ≤ s * m.fps := mul_nonneg hs hfps
  have hb : 0 ≤ t * m.fps := mul_nonneg (hs.trans hst) hfps
  have h1 : effectiveFrames m s t = ⌊t * m.fps⌋ - ⌊s * m.fps⌋ := by
    unfold effectiveFrames endFrame startFrame
    rw [pyInt_of_nonneg ha, pyInt_of_nonneg hb]
  refine ⟨h1, ?_⟩
  rw [h1]
  have hba : (t - s) * m.fps = t * m.fps - s * m.fps := by ring
  rw [hba]
  set a := s * m.fps with ha_def
  set b := t * m.fps with hb_def
  have hfa : (⌊a⌋ : ℚ) ≤ a := Int.floor_le a
  have hfa2 : a - 1 < (⌊a⌋ : ℚ) := Int.sub_one_lt_floor a
  have hfb : (⌊b⌋ : ℚ) ≤ b := Int.floor_le b
  have hfb2 : b - 1 < (⌊b⌋ : ℚ) := Int.sub_one_lt_floor b
  obtain ⟨hr1, hr2⟩ := abs_le.mp (abs_sub_round (b - a))
  have hq1 : ((-2 : ℤ) : ℚ) < ((⌊b⌋ - ⌊a⌋ - round (b - a) : ℤ) : ℚ) := by
    push_cast
    linarith
  have hq2 : ((⌊b⌋ - ⌊a⌋ - round (b - a) : ℤ) : ℚ) < ((2 : ℤ) : ℚ) := by
    push_cast
    linarith
  have h2 : (-2 : ℤ) < ⌊b⌋ - ⌊a⌋ - round (b - a) := by exact_mod_cast hq1
  have h3 : ⌊b⌋ - ⌊a⌋ - round (b - a) < 2 := by exact_mod_cast hq2
  rw [abs_le]
  omega

theorem c4_effective_frames_floor_difference_witness :
    effectiveFrames m120 30 90 = ⌊(90 : ℚ) * m120.fps⌋ - ⌊(30 : ℚ) * m120.fps⌋ ∧
      |effectiveFrames m120 30 90 - round (((90 : ℚ) - 30) * m120.fps)| ≤ 1 :=
  c4_effective_frames_floor_difference m120 30 90 (by norm_num)
    (by norm_num) (by norm_num [m120])

/-! ### C6: the concrete 120s/30fps scenario -/

/-- C6: for a 120-second source at 30 fps with
`start=30, stop=90, duration=3, fps=10`, the sampler computes
`effective_frames = 1800`, `output_frames_count = 30`,
`frame_interval = 60`, and samples exactly the 30 source indices
`900, 960, ..., 900 + 29*60`. -/
theorem c6_concrete_scenario :
    effectiveFrames m120 30 (clampStop m120 (some 90)) = 1800 ∧
      outputFramesCount 3 10 = 30 ∧
      frameInterval 1800 30 = 60 ∧
      create_gif_plan m120 3 none 10 30 (some 90) =
        .ok { indices :=
                (List.range 30).map (fun i : ℕ => (900 : ℤ) + 60 * (i : ℤ)),
              newWidth := 1920, newHeight := 1080,
              frameDuration := 1 / 10 } := by
  have hstop : clampStop m120 (some 90) = 90 := by
    rw [clampStop, Option.getD_some, m120_duration]
    norm_num
  have hsf : startFrame m120 30 = 900 := by
    norm_num [startFrame, pyInt, m120]
  have hef : effectiveFrames m120 30 90 = 1800 := by
    norm_num [effectiveFrames, endFrame, startFrame, pyInt, m120]
  have hn : outputFramesCount 3 10 = 30 := by
    norm_num [outputFramesCount, pyInt]
  have hfi : frameInterval 1800 30 = 60 := by
    norm_num [frameInterval]
  refine ⟨by rw [hstop]; exact hef, hn, hfi, ?_⟩
  rw [create_gif_plan_ok_iff, hstop, hef, hn, hfi, hsf,
    show ((30 : ℤ)).toNat = 30 from rfl]
  refine ⟨by norm_num, by norm_num, ?_⟩
  have hind : frameIndices 900 1800 60 30 =
      (List.range 30).map (fun i : ℕ => (900 : ℤ) + 60 * (i : ℤ)) := by
    unfold frameIndices
    refine List.map_congr_left ?_
    intro i hi
    rw [List.mem_range] at hi
    have h1 : ((i : ℚ)) * 60 = (((60 * i : ℕ) : ℤ) : ℚ) := by
      push_cast
      ring
    rw [h1, pyInt_of_nonneg (by positivity), Int.floor_intCast]
    have h2 : ((60 * i : ℕ) : ℤ) ≤ 1800 - 1 := by
      omega
    rw [min_eq_left h2]
    push_cast
    ring
  rw [hind]
  refine congrArg _ ?_
  simp [resizeTarget, m120]

/-- When the segment spans zero source frames, every sampled index
degenerates to `start_frame - 1`: the interval is `0 / n = 0`, so
`int(i * 0) = 0` and `min(0, 0 - 1) = -1`. -/
lemma frameIndices_zero_eff (sf : ℤ) (n : ℤ) (k : ℕ) :
    frameIndices sf 0 (frameInterval 0 n) k = List.replicate k (sf - 1) := by
  unfold frameIndices frameInterval
  rw [Int.cast_zero, zero_div]
  have h : ∀ i ∈ List.range k,
      sf + min (pyInt ((i : ℚ) * 0)) ((0 : ℤ) - 1) = sf - 1 := by
    intro i _
    rw [mul_zero, show pyInt 0 = 0 from by
      rw [pyInt_of_nonneg le_rfl]; exact Int.floor_zero]
    norm_num
    omega
  rw [List.map_congr_left h, List.map_const' (List.range k) (sf - 1),
    List.length_range]

/-! ### C9: a zero-span segment samples start_frame - 1 -/

/-- C9: whenever the conversion succeeds in producing a plan but the
clamped segment spans zero source frames (`effective_frames = 0`, which
happens when `int(stop*fps) = int(start*fps)` while `start < stop`),
every sampled source index equals `start_frame - 1` — strictly below the
segment start, and negative when `start_frame = 0`. -/
theorem c9_zero_span_samples_before_start (m : VideoMetadata)
    (duration : ℚ) (width : Option ℕ) (fps : ℕ) (start_time : ℚ)
    (stop_time : Option ℚ) (p : SamplingPlan)
    (hok : create_gif_plan m duration width fps start_time stop_time = .ok p)
    (heff : effectiveFrames m start_time (clampStop m stop_time) = 0) :
    (∀ x ∈ p.indices, x = startFrame m start_time - 1) ∧
      startFrame m start_time - 1 < startFrame m start_time ∧
      (startFrame m start_time = 0 → startFrame m start_time - 1 < 0) := by
  obtain ⟨-, -, rfl⟩ :=
    (create_gif_plan_ok_iff m duration width fps start_time stop_time p).mp hok
  refine ⟨?_, by omega, by omega⟩
  intro x hx
  rw [show (SamplingPlan.mk
      (frameIndices (startFrame m start_time)
        (effectiveFrames m start_time (clampStop m stop_time))
        (frameInterval (effectiveFrames m start_time (clampStop m stop_time))
          (outputFramesCount duration fps))
        (outputFramesCount duration fps).toNat)
      (resizeTarget m width).1 (resizeTarget m width).2
      (1 / (fps : ℚ))).indices =
      frameIndices (startFrame m start_time)
        (effectiveFrames m start_time (clampStop m stop_time))
        (frameInterval (effectiveFrames m start_time (clampStop m stop_time))
          (outputFramesCount duration fps))
        (outputFramesCount duration fps).toNat from rfl,
    heff, frameIndices_zero_eff] at hx
  exact List.eq_of_mem_replicate hx

/-- The plan produced for the zero-span scenario: 10-second 1920x1080
source at 10 fps, `start=0.01, stop=0.05, duration=1, fps=10`. -/
def planZeroSpan : SamplingPlan :=
  { indices :=
      frameIndices (startFrame m10 (1/100))
        (effectiveFrames m10 (1/100) (clampStop m10 (some (1/20))))
        (frameInterval
          (effectiveFrames m10 (1/100) (clampStop m10 (some (1/20))))
          (outputFramesCount 1 10))
        (outputFramesCount 1 10).toNat,
    newWidth := (resizeTarget m10 none).1,
    newHeight := (resizeTarget m10 none).2,
    frameDuration := 1 / ((10 : ℕ) : ℚ) }

lemma clampStop_m10_small : clampStop m10 (some (1/20)) = 1/20 := by
  rw [clampStop, Option.getD_some, m10_duration]
  norm_num

lemma effectiveFrames_m10_small :
    effectiveFrames m10 (1/100) (clampStop m10 (some (1/20))) = 0 := by
  rw [clampStop_m10_small]
  norm_num [effectiveFrames, endFrame, startFrame, pyInt, m10]

lemma create_gif_plan_zero_span :
    create_gif_plan m10 1 none 10 (1/100) (some (1/20)) = .ok planZeroSpan := by
  rw [create_gif_plan_ok_iff]
  refine ⟨?_, ?_, rfl⟩
  · rw [clampStop_m10_small]
    norm_num
  · norm_num [outputFramesCount, pyInt]

theorem c9_zero_span_samples_before_start_witness :
    startFrame m10 (1/100) - 1 < 0 :=
  (c9_zero_span_samples_before_start m10 1 none 10 (1/100) (some (1/20))
      planZeroSpan create_gif_plan_zero_span effectiveFrames_m10_small).2.2
    (by norm_num [startFrame, pyInt, m10])

/-! ### C3: count/range/monotonicity of the sampled indices -/

/-- C3 counterexample: for the 10s/10fps source with
`start=0.01, stop=0.05, duration=1, fps=10` the claim's hypotheses hold
(validation passes, `int(duration*fps) = 10 ≥ 1`), yet the sampled index
`-1` lies outside `[startFrame, startFrame + effectiveFrames) = [0, 0)`. -/
theorem c3_index_range_counterexample :
    create_gif_plan m10 1 none 10 (1/100) (some (1/20)) = .ok planZeroSpan ∧
      outputFramesCount 1 10 = 10 ∧
      startFrame m10 (1/100) = 0 ∧
      (-1 : ℤ) ∈ planZeroSpan.indices := by
  have hsf : startFrame m10 (1/100) = 0 := by
    norm_num [startFrame, pyInt, m10]
  have hn : outputFramesCount 1 10 = 10 := by
    norm_num [outputFramesCount, pyInt]
  refine ⟨create_gif_plan_zero_span, hn, hsf, ?_⟩
  have hrepl : planZeroSpan.indices = List.replicate 10 (-1) := by
    show frameIndices _ _ _ _ = _
    rw [effectiveFrames_m10_small, frameIndices_zero_eff, hsf, hn,
      show ((10 : ℤ)).toNat = 10 from rfl,
      show (0 : ℤ) - 1 = -1 from by norm_num]
  rw [hrepl]
  simp [List.mem_replicate]

/-- C3 amended: for every successful run with `outputDuration ≥ 0` and a
segment spanning at least one source frame (`effective_frames ≥ 1` — the
original claim omits this and fails when the span is zero), the sampler
returns exactly `floor(outputDuration*outputFps)` indices, each in
`[startFrame, startFrame + effectiveFrames)`, non-decreasing in output
order. -/
theorem c3_sampler_count_range_monotone (m : VideoMetadata) (duration : ℚ)
    (width : Option ℕ) (fps : ℕ) (start_time : ℚ) (stop_time : Option ℚ)
    (p : SamplingPlan)
    (hok : create_gif_plan m duration width fps start_time stop_time = .ok p)
    (hdur : 0 ≤ duration)
    (heff : 1 ≤ effectiveFrames m start_time (clampStop m stop_time)) :
    (p.indices.length : ℤ) = ⌊duration * (fps : ℚ)⌋ ∧
      (∀ x ∈ p.indices,
        startFrame m start_time ≤ x ∧
          x < startFrame m start_time +
            effectiveFrames m start_time (clampStop m stop_time)) ∧
      p.indices.Pairwise (· ≤ ·) := by
  obtain ⟨hv, hn0, hp⟩ :=
    (create_gif_plan_ok_iff m duration width fps start_time stop_time p).mp hok
  have hind : p.indices =
      frameIndices (startFrame m start_time)
        (effectiveFrames m start_time (clampStop m stop_time))
        (frameInterval (effectiveFrames m start_time (clampStop m stop_time))
          (outputFramesCount duration fps))
        (outputFramesCount duration fps).toNat := by
    rw [hp]
  set sf := startFrame m start_time with hsfd
  set eff := effectiveFrames m start_time (clampStop m stop_time) with heffd
  set n := outputFramesCount duration fps with hnd
  have hdn : (0 : ℚ) ≤ duration * (fps : ℚ) := mul_nonneg hdur (by positivity)
  have hfloor : n = ⌊duration * (fps : ℚ)⌋ := by
    rw [hnd]
    exact pyInt_of_nonneg hdn
  have hn_nonneg : (0 : ℤ) ≤ n := by
    rw [hfloor]
    exact Int.floor_nonneg.mpr hdn
  have hint : (0 : ℚ) ≤ frameInterval eff n := by
    unfold frameInterval
    apply div_nonneg
    · exact_mod_cast (by omega : (0 : ℤ) ≤ eff)
    · exact_mod_cast hn_nonneg
  refine ⟨?_, ?_, ?_⟩
  · rw [hind]
    unfold frameIndices
    rw [List.length_map, List.length_range, Int.toNat_of_nonneg hn_nonneg]
    exact hfloor
  · intro x hx
    rw [hind] at hx
    unfold frameIndices at hx
    rw [List.mem_map] at hx
    obtain ⟨i, -, rfl⟩ := hx
    have h0 : (0 : ℚ) ≤ (i : ℚ) * frameInterval eff n :=
      mul_nonneg (by positivity) hint
    have hmin1 : 0 ≤ min (pyInt ((i : ℚ) * frameInterval eff n)) (eff - 1) :=
      le_min (pyInt_nonneg h0) (by omega)
    have hmin2 :
        min (pyInt ((i : ℚ) * frameInterval eff n)) (eff - 1) ≤ eff - 1 :=
      min_le_right _ _
    constructor
    · linarith
    · linarith
  · rw [hind]
    unfold frameIndices
    rw [List.pairwise_map]
    refine List.Pairwise.imp ?_ (List.pairwise_lt_range _)
    intro a b hab
    have hmono : pyInt ((a : ℚ) * frameInterval eff n) ≤
        pyInt ((b : ℚ) * frameInterval eff n) := by
      apply pyInt_mono_of_nonneg (mul_nonneg (by positivity) hint)
      exact mul_le_mul_of_nonneg_right (by exact_mod_cast hab.le) hint
    have hmm := min_le_min hmono (le_refl (eff - 1))
    linarith

/-- The plan produced for the C6 scenario, in sampler terms. -/
def planSixty : SamplingPlan :=
  { indices :=
      frameIndices (startFrame m120 30)
        (effectiveFrames m120 30 (clampStop m120 (some 90)))
        (frameInterval (effectiveFrames m120 30 (clampStop m120 (some 90)))
          (outputFramesCount 3 10))
        (outputFramesCount 3 10).toNat,
    newWidth := (resizeTarget m120 none).1,
    newHeight := (resizeTarget m120 none).2,
    frameDuration := 1 / ((10 : ℕ) : ℚ) }

lemma create_gif_plan_sixty :
    create_gif_plan m120 3 none 10 30 (some 90) = .ok planSixty := by
  rw [create_gif_plan_ok_iff]
  refine ⟨?_, ?_, rfl⟩
  · rw [clampStop, Option.getD_some, m120_duration]
    norm_num
  · norm_num [outputFramesCount, pyInt]

lemma one_le_effectiveFrames_sixty :
    1 ≤ effectiveFrames m120 30 (clampStop m120 (some 90)) := by
  rw [clampStop, Option.getD_some, m120_duration,
    show min (90 : ℚ) 120 = 90 from by norm_num]
  norm_num [effectiveFrames, endFrame, startFrame, pyInt, m120]

theorem c3_sampler_count_range_monotone_witness :
    (planSixty.indices.length : ℤ) = ⌊(3 : ℚ) * ((10 : ℕ) : ℚ)⌋ :=
  (c3_sampler_count_range_monotone m120 3 none 10 30 (some 90) planSixty
      create_gif_plan_sixty (by norm_num) one_le_effectiveFrames_sixty).1

/-! ### C7: both encoder paths write the same delay, loop and frames -/

/-- C7: with the per-frame duration `frame_duration = 1/fps` computed at
line 109, the optimized PIL path (delay passed as
`frame_duration * 1000` milliseconds, `loop=0`) and the imageio fallback
(delay passed as `frame_duration` seconds, `loop=0`) write artifacts with
identical frame sequences (hence identical frame count and dimensions),
per-frame delay exactly `1/fps` seconds, and an infinite loop count of 0;
so when the optimized path's PIL capability check fails, the fallback
produces an identical observable artifact. -/
theorem c7_encoder_paths_agree (frames : List Frame) (fps : ℕ)
    (hne : frames ≠ []) (hfps : 0 < fps) :
    save_optimized_gif frames (1 / (fps : ℚ)) =
        some (mimsave frames (1 / (fps : ℚ))) ∧
      (mimsave frames (1 / (fps : ℚ))).delaySeconds = 1 / (fps : ℚ) ∧
      (mimsave frames (1 / (fps : ℚ))).loop = 0 ∧
      (mimsave frames (1 / (fps : ℚ))).frames = frames := by
  match frames with
  | [] => exact absurd rfl hne
  | f :: rest =>
      refine ⟨?_, rfl, rfl, rfl⟩
      unfold save_optimized_gif mimsave
      have hdelay : (1 / (fps : ℚ)) * 1000 / 1000 = 1 / (fps : ℚ) := by
        norm_num
      rw [hdelay]

theorem c7_encoder_paths_agree_witness :
    save_optimized_gif [⟨300, 168⟩] (1 / ((10 : ℕ) : ℚ)) =
      some (mimsave [⟨300, 168⟩] (1 / ((10 : ℕ) : ℚ))) :=
  (c7_encoder_paths_agree [⟨300, 168⟩] 10 (by simp) (by norm_num)).1
